import Mathlib

/-!
Shallow embedding of `gentestdisplay/LabJackHandler.py`: the register-catalog
builder, the typed register accessor, the streaming controller and the
reference-counted device lifecycle of `LabJackHandler` / `LabJackDevice`.

Modelling conventions:
* Python dicts become insertion-ordered association lists (`dictInsert`
  replaces in place, `dictGet` finds the unique binding, `dictRemove`
  deletes it), matching CPython dict semantics for the operations used.
* Python floats are modelled by their integral values (`PyVal.float` carries
  an `Int`): no claim depends on fractional values, and `int()` truncation
  on an integral float is the identity.
* Calls into the external `ljm` driver are recorded as explicit event lists
  (`DriverCall`, `StreamEvent`, `LifecycleEvent`); driver reads are supplied
  by an oracle (`LJM`).
* Locks (`RLock`) and `print` statements are omitted: the embedding is the
  sequential semantics of each operation.
-/

namespace LabJackHandler

/-- Error codes from the top of `LabJackHandler.py`. -/
def LJD_SYSTEM_NOT_SUPPORTED : Nat := 1

def LJD_FILE_ERROR : Nat := 2

def LJD_NOT_A_VALID_REGISTER : Nat := 3

def LJD_LABJACK_NOT_FOUND : Nat := 4

def LJD_UNKNOWN_TYPE : Nat := 5

def LJD_REGISTER_NOT_READABLE : Nat := 6

def LJD_REGISTER_NOT_WRITABLE : Nat := 7

def LJD_INVALID_CHANNEL_TYPE : Nat := 8

def LJD_STREAMING_IN_PROGRESS : Nat := 9

def LJD_STREAMING_REQUIRES_CALLBACK : Nat := 10

def LJD_STREAMING_REQUIRES_CHANNELS : Nat := 11

/-- Failure outcomes: `ljd code` is a raised `LabJackException` with that
code; the `py*` constructors are plain Python exceptions that escape the
module untyped (`float()` on a non-numeric string, a call with the wrong
number of arguments, an unguarded dict subscript). -/
inductive LJError
  | ljd (code : Nat)
  | pyValueError
  | pyTypeError
  | pyKeyError
deriving DecidableEq, Repr

/-- Python runtime values crossing the driver boundary (floats restricted to
integral values, see the module comment). -/
inductive PyVal
  | int (i : Int)
  | float (f : Int)
  | str (s : String)
  | bool (b : Bool)
deriving DecidableEq, Repr

/-- One element of a raw register's `constants` list: a `{value, name}`
pair from the JSON document. -/
structure RawConstant where
  value : Int
  name : String
deriving DecidableEq, Repr

/-- One raw entry of the `registers` list of the parsed constants document.
The per-model `devices` records are abstracted to the list of model names;
no claim depends on their other fields. -/
structure RawReg where
  name : String
  address : Int
  type : String
  readwrite : String
  constants : Option (List RawConstant) := none
  devices : Option (List String) := none
deriving DecidableEq, Repr

/-- A catalog entry before the constants-inversion pass: the `deepcopy(reg)`
dict, possibly with `first_channel`/`last_channel` added (channel-group
entries) or `name`/`address` overwritten (expanded members). -/
structure PreEntry where
  name : String
  address : Int
  type : String
  readwrite : String
  constants : Option (List RawConstant) := none
  devices : Option (List String) := none
  first_channel : Option Nat := none
  last_channel : Option Nat := none
deriving DecidableEq, Repr

/-- A finished catalog entry: same shape, but with the `constants` list
inverted into a value-to-name mapping (modelled as an association list). -/
structure RegEntry where
  name : String
  address : Int
  type : String
  readwrite : String
  constants : Option (List (Int × String)) := none
  devices : Option (List String) := none
  first_channel : Option Nat := none
  last_channel : Option Nat := none
deriving DecidableEq, Repr

/-- Python dict assignment `d[k] = v`: replace the binding in place if the
key exists, else append it. -/
def dictInsert {κ α : Type} [DecidableEq κ] (k : κ) (v : α) :
    List (κ × α) → List (κ × α)
  | [] => [(k, v)]
  | (k', v') :: rest =>
      if k' = k then (k, v) :: rest else (k', v') :: dictInsert k v rest

/-- Python dict lookup `d[k]` / `k in d`: the first (hence, under
`dictInsert` discipline, unique) binding of `k`. -/
def dictGet {κ α : Type} [DecidableEq κ] (k : κ) :
    List (κ × α) → Option α
  | [] => none
  | (k', v) :: rest => if k' = k then some v else dictGet k rest

/-- Python `del d[k]`: drop the binding of `k`. -/
def dictRemove {κ α : Type} [DecidableEq κ] (k : κ) :
    List (κ × α) → List (κ × α)
  | [] => []
  | (k', v) :: rest =>
      if k' = k then rest else (k', v) :: dictRemove k rest

/-- ASCII alphanumeric, the character class of the first group of the
pattern `([a-zA-Z0-9]+)#\(([0-9]+):([0-9]+)\)(_.*)`. -/
def isAlnumAscii (c : Char) : Bool := c.isAlpha || c.isDigit

/-- Decimal digits to a number, most significant first. -/
def digitsToNat (ds : List Char) : Nat :=
  ds.foldl (fun a c => a * 10 + (c.toNat - 48)) 0

/-- Read a nonempty run of digits from the front. -/
def parseDigits (cs : List Char) : Option (Nat × List Char) :=
  let p := cs.span Char.isDigit
  if p.1.isEmpty then none else some (digitsToNat p.1, p.2)

/-- The compiled pattern `reg_info`, applied with `re.match`: a nonempty
alphanumeric head, the literal `#(`, two digit runs separated by `:`, a
closing `)`, then a suffix that must begin with `_`.  Returns the four
captured groups.  Names are assumed newline-free, so the greedy `.*`
captures the whole remainder. -/
def matchRegInfo (s : String) : Option (String × Nat × Nat × String) :=
  let p := s.toList.span isAlnumAscii
  if p.1.isEmpty then none
  else
    match p.2 with
    | '#' :: '(' :: r2 =>
        match parseDigits r2 with
        | some (st, r3) =>
            match r3 with
            | ':' :: r4 =>
                match parseDigits r4 with
                | some (en, r5) =>
                    match r5 with
                    | ')' :: r6 =>
                        match r6 with
                        | '_' :: _ =>
                            some (String.mk p.1, st, en, String.mk r6)
                        | _ => none
                    | _ => none
                | none => none
            | _ => none
        | none => none
    | _ => none

/-- The `deepcopy(reg)` dict as a catalog entry. -/
def toPre (reg : RawReg) : PreEntry :=
  { name := reg.name, address := reg.address, type := reg.type,
    readwrite := reg.readwrite, constants := reg.constants,
    devices := reg.devices }

/-- The bindings one raw entry contributes to `self.registers` (body of the
first loop of `LabJackHandler.__init__`): a matching name yields the
synthetic `CHANNEL_GROUP_<head>` entry carrying the parsed bounds, then one
member per index of `range(start, end + 1)` named `<head><point><rest>`
with addresses counting up from the base address; a non-matching name
yields the entry verbatim. -/
def expandEntries (reg : RawReg) : List (String × PreEntry) :=
  match matchRegInfo reg.name with
  | some (head, start, stop, rest) =>
      ("CHANNEL_GROUP_" ++ head,
        { toPre reg with first_channel := some start,
                         last_channel := some stop }) ::
      (List.range (stop + 1 - start)).map (fun i =>
        let nm := head ++ toString (start + i) ++ rest
        (nm, { toPre reg with name := nm, address := reg.address + i }))
  | none => [(reg.name, toPre reg)]

/-- The first loop of `LabJackHandler.__init__`: fold every raw entry's
contributed bindings into the `registers` dict in order. -/
def buildRaw (regs : List RawReg) : List (String × PreEntry) :=
  regs.foldl
    (fun acc reg => (expandEntries reg).foldl
      (fun acc kv => dictInsert kv.1 kv.2 acc) acc) []

/-- The dict comprehension
`{constant["value"]: constant["name"] for constant in constants}`. -/
def invertConstants (l : List RawConstant) : List (Int × String) :=
  l.foldl (fun m c => dictInsert c.value c.name m) []

/-- The second loop of `LabJackHandler.__init__` applied to one entry:
invert the `constants` list in place (the `devices` normalisation keeps the
model-name keys, which is all the abstraction retains). -/
def postProcess (e : PreEntry) : RegEntry :=
  { name := e.name, address := e.address, type := e.type,
    readwrite := e.readwrite,
    constants := e.constants.map invertConstants,
    devices := e.devices,
    first_channel := e.first_channel, last_channel := e.last_channel }

/-- The whole catalog construction of `LabJackHandler.__init__`. -/
def buildRegisters (regs : List RawReg) : List (String × RegEntry) :=
  (buildRaw regs).map (fun kv => (kv.1, postProcess kv.2))

/-- The driver oracle: what `ljm.eReadName` / `ljm.eReadNameString` return
for a given register name on the opened handle. -/
structure LJM where
  eReadName : String → Int
  eReadNameString : String → String

/-- One call into the external driver made by the register accessor.
`eWriteNameTwoArgs` is the two-argument call shape
`ljm.eWriteName(self.handle, float(name))` of the float write branch. -/
inductive DriverCall
  | eReadName (name : String)
  | eReadNameString (name : String)
  | eWriteName (name : String) (value : Int)
  | eWriteNameString (name : String) (value : String)
  | eWriteNameTwoArgs (value : Int)
deriving DecidableEq, Repr

/-- The integer type tags of the dispatch lists in
`ReadRegister`/`WriteRegister`. -/
def intKinds : List String := ["INT16", "INT32", "UINT16", "UINT32"]

/-- The float type tags of the dispatch lists. -/
def floatKinds : List String := ["FLOAT32", "FLOAT64"]

/-- Python `int(value)`: identity on ints and integral floats, decimal
parse on strings (`ValueError`, i.e. `none`, otherwise). -/
def strToIntOpt (s : String) : Option Int :=
  match s.toList with
  | '-' :: rest =>
      if rest ≠ [] ∧ rest.all Char.isDigit
      then some (-(digitsToNat rest : Int)) else none
  | cs =>
      if cs ≠ [] ∧ cs.all Char.isDigit
      then some ((digitsToNat cs : Int)) else none

/-- Python `int(value)` on a runtime value. -/
def pyIntOf : PyVal → Option Int
  | .int i => some i
  | .float f => some f
  | .str s => strToIntOpt s
  | .bool b => some (if b then 1 else 0)

/-- Python `str(value)` (integral floats keep their `.0` rendering). -/
def pyStrOf : PyVal → String
  | .int i => toString i
  | .float f => toString f ++ ".0"
  | .str s => s
  | .bool b => if b then "True" else "False"

/-- Python `float(s)` on a string, restricted to the decimal-integer
fragment (register names are never numeric, so the only fact used is
whether the parse fails with `ValueError`). -/
def pyFloatOfString (s : String) : Option Int := strToIntOpt s

/-- Lookup of a read value among the inverted constants keys:
`value in info["constants"]`.  An integral float compares equal to the
integer key, a string never matches a numeric key. -/
def constLookup (m : List (Int × String)) (v : PyVal) : Option String :=
  match v with
  | .int i => dictGet i m
  | .float f => dictGet f m
  | .str _ => none
  | .bool b => dictGet (if b then 1 else 0) m

/-- The constants substitution at the end of `ReadRegister`: replace the
raw value by its symbolic name when it is a key of the register's inverted
constants mapping. -/
def substConst (info : RegEntry) (value : PyVal) : PyVal :=
  match info.constants with
  | some m =>
      match constLookup m value with
      | some nm => PyVal.str nm
      | none => value
  | none => value

/-- The result type of an accessor call: the outcome plus the list of
driver calls made. -/
abbrev AccessResult (α : Type) : Type := Except LJError α × List DriverCall

/-- `LabJackDevice.ReadRegister`: membership check, `_typeraw` lookup,
read-permission check, typed dispatch on the type tag, then constants
substitution. -/
def ReadRegister (drv : LJM) (registers : List (String × RegEntry))
    (name : String) : AccessResult PyVal :=
  match dictGet name registers with
  | none => (Except.error (LJError.ljd LJD_NOT_A_VALID_REGISTER), [])
  | some info =>
      let type_info := info.type
      if ¬(info.readwrite.toList.contains 'R') then
        (Except.error (LJError.ljd LJD_REGISTER_NOT_READABLE), [])
      else if intKinds.contains type_info then
        (Except.ok (substConst info (PyVal.int (drv.eReadName name))),
          [DriverCall.eReadName name])
      else if type_info = "STRING" then
        (Except.ok (substConst info (PyVal.str (drv.eReadNameString name))),
          [DriverCall.eReadNameString name])
      else if floatKinds.contains type_info then
        (Except.ok (substConst info (PyVal.float (drv.eReadName name))),
          [DriverCall.eReadName name])
      else
        (Except.error (LJError.ljd LJD_UNKNOWN_TYPE), [])

/-- `LabJackDevice.WriteRegister`: membership check, `_typeraw` lookup,
write-permission check, then typed dispatch.  The float branch reproduces
source line 167, `ljm.eWriteName(self.handle, float(name))`: `float()` is
applied to the register NAME (raising `ValueError` when the name is not
numeric), and a numeric name still leaves a two-argument call that raises
`TypeError`; either way no driver write is performed and the supplied
value is dropped. -/
def WriteRegister (registers : List (String × RegEntry)) (name : String)
    (value : PyVal) : AccessResult Unit :=
  match dictGet name registers with
  | none => (Except.error (LJError.ljd LJD_NOT_A_VALID_REGISTER), [])
  | some info =>
      let type_info := info.type
      if ¬(info.readwrite.toList.contains 'W') then
        (Except.error (LJError.ljd LJD_REGISTER_NOT_WRITABLE), [])
      else if intKinds.contains type_info then
        match pyIntOf value with
        | some i => (Except.ok (), [DriverCall.eWriteName name i])
        | none => (Except.error LJError.pyValueError, [])
      else if type_info = "STRING" then
        (Except.ok (), [DriverCall.eWriteNameString name (pyStrOf value)])
      else if floatKinds.contains type_info then
        match pyFloatOfString name with
        | none => (Except.error LJError.pyValueError, [])
        | some _ => (Except.error LJError.pyTypeError, [])
      else
        (Except.error (LJError.ljd LJD_UNKNOWN_TYPE), [])

/-- `LabJackHandler._typeraw`: the declared type tag of the register; a
missing name raises a `LabJackException` with code
`LJD_NOT_A_VALID_REGISTER`. -/
def _typeraw (registers : List (String × RegEntry)) (name : String) :
    Except LJError String :=
  match dictGet name registers with
  | some info => Except.ok info.type
  | none => Except.error (LJError.ljd LJD_NOT_A_VALID_REGISTER)

/-- `LabJackHandler.Type` (named `Type'` because `Type` is a Lean sort):
reports `"STRING"` whenever the entry carries a constants mapping, else the
declared type tag.  The unguarded subscript raises a bare `KeyError` for an
unknown name. -/
def Type' (registers : List (String × RegEntry)) (name : String) :
    Except LJError String :=
  match dictGet name registers with
  | some info =>
      Except.ok (if info.constants.isSome then "STRING" else info.type)
  | none => Except.error LJError.pyKeyError

/-- The mutable streaming fields of a `LabJackDevice`: the `__streaming`
flag, the registered `__stream_callback` (an opaque callback identity) and
the `__stream_completion` slot. -/
structure DeviceStreamState where
  streaming : Bool := false
  stream_callback : Option Nat := none
  stream_completion : Option PyVal := none
deriving DecidableEq, Repr

/-- One streaming-related call into the external driver or into the
caller's callback. -/
inductive StreamEvent
  | namesToAddresses (channels : List String)
  | eStreamStart (scans_per_read : Nat) (numAddresses : Nat)
  | setStreamCallback
  | eStreamStop
  | callbackSentinel (cb : Option Nat)
deriving DecidableEq, Repr

/-- `LabJackDevice.StreamStart`: fails while already streaming, without a
callback, or without channels; otherwise resolves the channel addresses,
marks the device streaming, registers the callback and starts driver
delivery.  `rc` is the driver's return value from `ljm.eStreamStart`; the
`scan_rate` float argument is dropped by the abstraction (it is passed
through unused by the control logic). -/
def StreamStart (st : DeviceStreamState) (channels : Option (List String))
    (scans_per_read : Nat) (callback : Option Nat) (rc : Int) :
    Except LJError Int × DeviceStreamState × List StreamEvent :=
  if st.streaming then
    (Except.error (LJError.ljd LJD_STREAMING_IN_PROGRESS), st, [])
  else
    match callback with
    | none =>
        (Except.error (LJError.ljd LJD_STREAMING_REQUIRES_CALLBACK), st, [])
    | some cb =>
        match channels with
        | none =>
            (Except.error (LJError.ljd LJD_STREAMING_REQUIRES_CHANNELS),
              st, [])
        | some chs =>
            (Except.ok rc,
              { st with streaming := true, stream_callback := some cb },
              [StreamEvent.namesToAddresses chs,
               StreamEvent.eStreamStart scans_per_read chs.length,
               StreamEvent.setStreamCallback])

/-- `LabJackDevice.StreamStop`: while streaming, clear the flag, stop
driver delivery and invoke the registered callback once with the `None`
sentinel (`cbResult` is whatever that call returns); otherwise record and
return `False` without touching the driver or the callback. -/
def StreamStop (cbResult : PyVal) (st : DeviceStreamState) :
    PyVal × DeviceStreamState × List StreamEvent :=
  if st.streaming then
    (cbResult,
      { st with streaming := false, stream_completion := some cbResult },
      [StreamEvent.eStreamStop,
       StreamEvent.callbackSentinel st.stream_callback])
  else
    (PyVal.bool false,
      { st with stream_completion := some (PyVal.bool false) }, [])

/-- One `sn_in_use` table entry: the shared `LabJackDevice` (an opaque
identity) and its `use` count. -/
structure UseEntry where
  device : Nat
  use : Nat
deriving DecidableEq, Repr

/-- The registry state of `LabJackHandler`: the `sn_in_use` table plus a
fresh-handle counter standing for `ljm.openS` allocating a new device. -/
structure RegistryState where
  sn_in_use : List (String × UseEntry) := []
  next_handle : Nat := 0
deriving DecidableEq, Repr

/-- A lifecycle call into the external driver. -/
inductive LifecycleEvent
  | driverOpenS (serial : String)
  | driverClose (device : Nat)
deriving DecidableEq, Repr

/-- `LabJackHandler.Open` (driver open modelled as succeeding; the
`DeviceNotFound` failure path is not under claim): a serial already in use
bumps its count and returns the existing device, otherwise `ljm.openS`
runs and a fresh entry with count 1 is stored. -/
def Open (st : RegistryState) (serial : String) :
    Nat × RegistryState × List LifecycleEvent :=
  match dictGet serial st.sn_in_use with
  | some entry =>
      (entry.device,
        { st with sn_in_use :=
            (dictInsert serial { entry with use := entry.use + 1 }
              st.sn_in_use) },
        [])
  | none =>
      (st.next_handle,
        { sn_in_use :=
            dictInsert serial { device := st.next_handle, use := 1 }
              st.sn_in_use,
          next_handle := st.next_handle + 1 },
        [LifecycleEvent.driverOpenS serial])

/-- `LabJackHandler.Close`, keyed by the device's serial number: an absent
serial is a silent no-op; a count of 1 deletes the table entry and `del`s
the local reference, which emits NO driver call (the source contains no
`ljm` close call anywhere); a larger count is decremented. -/
def Close (st : RegistryState) (serial : String) :
    RegistryState × List LifecycleEvent :=
  match dictGet serial st.sn_in_use with
  | none => (st, [])
  | some entry =>
      if entry.use = 1 then
        ({ st with sn_in_use := dictRemove serial st.sn_in_use }, [])
      else
        ({ st with sn_in_use :=
            (dictInsert serial { entry with use := entry.use - 1 }
              st.sn_in_use) }, [])

/-- The configuration-dialog fields of a `LabJackHandler`: `__init__` sets
`config_dialog`; `SetConfigDialog` (source line 287) assigns the
misspelled attribute `config_dialg`, which this structure therefore also
carries. -/
structure ConfigState where
  config_dialog : Option Int := none
  config_dialg : Option Int := none
deriving DecidableEq, Repr

/-- The handler state right after `__init__` (`self.config_dialog = None`;
the misspelled attribute does not exist yet). -/
def configInit : ConfigState := {}

/-- `LabJackHandler.SetConfigDialog`: `self.config_dialg = dialog` — the
assignment targets the misspelled attribute. -/
def SetConfigDialog (st : ConfigState) (dialog : Option Int) : ConfigState :=
  { st with config_dialg := dialog }

/-- `LabJackHandler.GetConfigDialog`: returns `self.config_dialog`. -/
def GetConfigDialog (st : ConfigState) : Option Int :=
  st.config_dialog

/-- Is a lifecycle event a call to the driver's close primitive. -/
def isDriverClose : LifecycleEvent → Bool
  | LifecycleEvent.driverClose _ => true
  | _ => false

/-- The driver oracle used by the concrete test catalogs. -/
def testLJM : LJM :=
  { eReadName := fun _ => 1, eReadNameString := fun _ => "" }

/-- The raw entry of the spec's catalog scenario. -/
def ainScenarioReg : RawReg :=
  { name := "AIN#(0:3)_EF_READ_A", address := 100, type := "FLOAT32",
    readwrite := "R" }

/-- A concrete enumerated register with two distinct constant values. -/
def enumReg : RawReg :=
  { name := "TEST_ENUM2", address := 3001, type := "UINT16",
    readwrite := "R", constants := some [⟨0, "LOW"⟩, ⟨1, "HIGH"⟩] }

/-- The catalog entry `buildRegisters` produces for `enumReg`. -/
def enumEntry : RegEntry :=
  { name := "TEST_ENUM2", address := 3001, type := "UINT16",
    readwrite := "R", constants := some [(0, "LOW"), (1, "HIGH")] }

/-- Lookup is unchanged by an insertion under a different key. -/
theorem dictGet_dictInsert_ne {κ α : Type} [DecidableEq κ] (k k' : κ)
    (v : α) (m : List (κ × α)) (h : k' ≠ k) :
    dictGet k' (dictInsert k v m) = dictGet k' m := by
  have hk : ¬k = k' := fun hh => h hh.symm
  induction m with
  | nil => simp [dictInsert, dictGet, hk]
  | cons a m ih =>
      rcases a with ⟨ak, av⟩
      by_cases hak : ak = k
      · subst hak
        simp [dictInsert, dictGet, hk]
      · simp [dictInsert, dictGet, hak, ih]

/-- Inserting an absent key grows the dict by one binding. -/
theorem dictInsert_length_new {κ α : Type} [DecidableEq κ] (k : κ) (v : α)
    (m : List (κ × α)) (h : dictGet k m = none) :
    (dictInsert k v m).length = m.length + 1 := by
  induction m with
  | nil => simp [dictInsert]
  | cons a m ih =>
      by_cases hak : a.1 = k
      · simp [dictGet, hak] at h
      · simp [dictGet, hak] at h
        simp [dictInsert, hak, ih h]

/-- Folding a constants list with pairwise-distinct values into a dict
whose keys avoid all of them adds one binding per element. -/
theorem invertFold_length (l : List RawConstant) (acc : List (Int × String))
    (h : (l.map RawConstant.value).Nodup)
    (hd : ∀ c ∈ l, dictGet c.value acc = none) :
    (l.foldl (fun m c => dictInsert c.value c.name m) acc).length =
      acc.length + l.length := by
  induction l generalizing acc with
  | nil => simp
  | cons c l ih =>
      simp only [List.map_cons, List.nodup_cons] at h
      have hacc : dictGet c.value acc = none := hd c (List.mem_cons_self c l)
      have hd' : ∀ c' ∈ l,
          dictGet c'.value (dictInsert c.value c.name acc) = none := by
        intro c' hc'
        rw [dictGet_dictInsert_ne]
        · exact hd c' (List.mem_cons_of_mem c hc')
        · intro he
          exact h.1
            (by simpa [he] using List.mem_map_of_mem RawConstant.value hc')
      have step := ih (dictInsert c.value c.name acc) h.2 hd'
      simp only [List.foldl_cons, List.length_cons]
      rw [step, dictInsert_length_new c.value c.name acc hacc]
      omega

/-- With pairwise-distinct raw values the inverted mapping keeps every
binding. -/
theorem invertConstants_length (l : List RawConstant)
    (h : (l.map RawConstant.value).Nodup) :
    (invertConstants l).length = l.length := by
  simpa [invertConstants] using
    invertFold_length l [] h (fun c _ => rfl)

/-- C2: a raw entry whose name matches the indexed-family pattern with
head `p`, bounds `s ≤ e` and suffix `x` contributes exactly one synthetic
`CHANNEL_GROUP_p` entry carrying bounds `(s, e)` followed by exactly
`e - s + 1` concrete entries named `p{s..e}x`, whose addresses climb by one
per index from the entry's base address; only the synthetic entry carries
channel bounds. -/
theorem expandEntries_indexed_family (reg : RawReg) (p : String)
    (s e : Nat) (x : String)
    (hm : matchRegInfo reg.name = some (p, s, e, x)) (hse : s ≤ e) :
    ∃ g members,
      expandEntries reg = ("CHANNEL_GROUP_" ++ p, g) :: members ∧
      g.first_channel = some s ∧ g.last_channel = some e ∧
      members.length = e - s + 1 ∧
      (∀ i (hi : i < members.length),
        (members.get ⟨i, hi⟩).1 = p ++ toString (s + i) ++ x ∧
        (members.get ⟨i, hi⟩).2.address = reg.address + i ∧
        (members.get ⟨i, hi⟩).2.first_channel = none) := by
  unfold expandEntries
  rw [hm]
  refine ⟨_, _, rfl, rfl, rfl, ?_, ?_⟩
  · simp only [List.length_map, List.length_range]
    omega
  · intro i hi
    simp only [List.length_map, List.length_range] at hi
    simp [List.get_eq_getElem, List.getElem_map, List.getElem_range, toPre]

/-- Witness for C2 at the spec's scenario entry
`AIN#(0:3)_EF_READ_A` at base address 100. -/
theorem expandEntries_indexed_family_witness :
    matchRegInfo ainScenarioReg.name = some ("AIN", 0, 3, "_EF_READ_A") ∧
    (0 : Nat) ≤ 3 ∧
    ∃ g members,
      expandEntries ainScenarioReg = ("CHANNEL_GROUP_" ++ "AIN", g) :: members ∧
      g.first_channel = some 0 ∧ g.last_channel = some 3 ∧
      members.length = 3 - 0 + 1 ∧
      (∀ i (hi : i < members.length),
        (members.get ⟨i, hi⟩).1 = "AIN" ++ toString (0 + i) ++ "_EF_READ_A" ∧
        (members.get ⟨i, hi⟩).2.address = ainScenarioReg.address + i ∧
        (members.get ⟨i, hi⟩).2.first_channel = none) :=
  ⟨by decide, by decide,
    expandEntries_indexed_family ainScenarioReg "AIN" 0 3 "_EF_READ_A"
      (by decide) (by decide)⟩

/-- C5: reading a register whose permission string lacks `R` fails with the
`LJD_REGISTER_NOT_READABLE` code and issues no driver call. -/
theorem read_not_readable (drv : LJM)
    (registers : List (String × RegEntry)) (name : String) (info : RegEntry)
    (h1 : dictGet name registers = some info)
    (h2 : info.readwrite.toList.contains 'R' = false) :
    ReadRegister drv registers name =
      (Except.error (LJError.ljd LJD_REGISTER_NOT_READABLE), []) := by
  have h2' : 'R' ∉ info.readwrite.data := by simpa using h2
  simp [ReadRegister, h1, h2']

/-- A write-only register used to witness C5. -/
def writeOnlyReg : RawReg :=
  { name := "TEST_WO", address := 4000, type := "UINT32", readwrite := "W" }

/-- Witness for C5 on a concrete write-only register. -/
theorem read_not_readable_witness :
    ReadRegister testLJM (buildRegisters [writeOnlyReg]) "TEST_WO" =
      (Except.error (LJError.ljd LJD_REGISTER_NOT_READABLE), []) :=
  read_not_readable testLJM (buildRegisters [writeOnlyReg]) "TEST_WO"
    { name := "TEST_WO", address := 4000, type := "UINT32",
      readwrite := "W" }
    (by decide) (by decide)

/-- C6: writing a register whose permission string lacks `W` fails with the
`LJD_REGISTER_NOT_WRITABLE` code and issues no driver call. -/
theorem write_not_writable (registers : List (String × RegEntry))
    (name : String) (value : PyVal) (info : RegEntry)
    (h1 : dictGet name registers = some info)
    (h2 : info.readwrite.toList.contains 'W' = false) :
    WriteRegister registers name value =
      (Except.error (LJError.ljd LJD_REGISTER_NOT_WRITABLE), []) := by
  have h2' : 'W' ∉ info.readwrite.data := by simpa using h2
  simp [WriteRegister, h1, h2']

/-- A read-only register used to witness C6. -/
def readOnlyReg : RawReg :=
  { name := "TEST_RO", address := 4001, type := "UINT32", readwrite := "R" }

/-- Witness for C6 on a concrete read-only register. -/
theorem write_not_writable_witness :
    WriteRegister (buildRegisters [readOnlyReg]) "TEST_RO" (PyVal.int 7) =
      (Except.error (LJError.ljd LJD_REGISTER_NOT_WRITABLE), []) :=
  write_not_writable (buildRegisters [readOnlyReg]) "TEST_RO" (PyVal.int 7)
    { name := "TEST_RO", address := 4001, type := "UINT32",
      readwrite := "R" }
    (by decide) (by decide)

/-- A raw entry whose constants list repeats the value 0 under two
names. -/
def dupConstReg : RawReg :=
  { name := "TEST_ENUM", address := 3000, type := "UINT16",
    readwrite := "R", constants := some [⟨0, "A"⟩, ⟨0, "B"⟩] }

/-- Counterexample to C4 as stated: a constants list of length 2 whose
values coincide builds a mapping with a single binding (the Python dict
comprehension lets the later name win), so the mapping does not have
exactly `n` entries. -/
theorem constants_dup_collapse_cex :
    ((dictGet "TEST_ENUM" (buildRegisters [dupConstReg])).bind
        RegEntry.constants).map List.length = some 1 ∧
      (1 : Nat) ≠ 2 := by
  decide

/-- C4 (amended): when the raw values are pairwise distinct, the built
catalog's mapping for the register has exactly `n` bindings keyed by raw
value (with duplicated values the later name overwrites the earlier one
and the mapping is smaller); and a read whose raw result is a key of the
mapping returns the symbolic name instead of the number. -/
theorem constants_inversion_amended :
    (∀ (reg : RawReg) (l : List RawConstant),
      matchRegInfo reg.name = none → reg.constants = some l →
      (l.map RawConstant.value).Nodup →
      ∃ e, dictGet reg.name (buildRegisters [reg]) = some e ∧
        e.constants = some (invertConstants l) ∧
        (invertConstants l).length = l.length) ∧
    (∀ (drv : LJM) (registers : List (String × RegEntry)) (name : String)
      (info : RegEntry) (m : List (Int × String)) (nm : String),
      dictGet name registers = some info →
      info.readwrite.toList.contains 'R' = true →
      intKinds.contains info.type = true →
      info.constants = some m →
      dictGet (drv.eReadName name) m = some nm →
      ReadRegister drv registers name =
        (Except.ok (PyVal.str nm), [DriverCall.eReadName name])) ∧
    (∀ (drv : LJM) (registers : List (String × RegEntry)) (name : String)
      (info : RegEntry) (m : List (Int × String)) (nm : String),
      dictGet name registers = some info →
      info.readwrite.toList.contains 'R' = true →
      floatKinds.contains info.type = true →
      info.constants = some m →
      dictGet (drv.eReadName name) m = some nm →
      ReadRegister drv registers name =
        (Except.ok (PyVal.str nm), [DriverCall.eReadName name])) := by
  refine ⟨?_, ?_, ?_⟩
  · intro reg l hm hc hnd
    refine ⟨postProcess (toPre reg), ?_, ?_, invertConstants_length l hnd⟩
    · simp [buildRegisters, buildRaw, expandEntries, hm, dictInsert, dictGet]
    · simp [postProcess, toPre, hc]
  · intro drv registers name info m nm h1 h2 h3 h4 h5
    have h2' : 'R' ∈ info.readwrite.data := by simpa using h2
    have h3' : info.type ∈ intKinds := by simpa using h3
    simp [ReadRegister, h1, h2', h3', substConst, h4, constLookup, h5]
  · intro drv registers name info m nm h1 h2 h3 h4 h5
    have h2' : 'R' ∈ info.readwrite.data := by simpa using h2
    have h3' : info.type ∈ floatKinds := by simpa using h3
    have h3'' : info.type = "FLOAT32" ∨ info.type = "FLOAT64" := by
      simpa [floatKinds] using h3'
    have hni : info.type ∉ intKinds := by
      rcases h3'' with he | he <;> simp [he, intKinds]
    have hns : info.type ≠ "STRING" := by
      rcases h3'' with he | he <;> simp [he]
    simp [ReadRegister, h1, h2', h3', hni, hns, substConst, h4,
      constLookup, h5]

/-- Witness for C4 (amended) on a two-constant register read back as the
raw value 1. -/
theorem constants_inversion_amended_witness :
    (invertConstants [⟨0, "LOW"⟩, ⟨1, "HIGH"⟩]).length = 2 ∧
    ReadRegister testLJM (buildRegisters [enumReg]) "TEST_ENUM2" =
      (Except.ok (PyVal.str "HIGH"), [DriverCall.eReadName "TEST_ENUM2"]) := by
  constructor
  · have h := constants_inversion_amended.1 enumReg [⟨0, "LOW"⟩, ⟨1, "HIGH"⟩]
      (by decide) (by decide) (by decide)
    obtain ⟨e, _, _, h3⟩ := h
    simpa using h3
  · exact constants_inversion_amended.2.1 testLJM (buildRegisters [enumReg])
      "TEST_ENUM2" enumEntry [(0, "LOW"), (1, "HIGH")] "HIGH"
      (by decide) (by decide) (by decide) (by decide) (by decide)

/-- C7: a StreamStart on a device already streaming fails with the
`LJD_STREAMING_IN_PROGRESS` code, leaves the state (in particular the
registered callback) unchanged and makes no driver call. -/
theorem streamstart_already_streaming (st : DeviceStreamState)
    (channels : Option (List String)) (scans_per_read : Nat)
    (callback : Option Nat) (rc : Int) (h : st.streaming = true) :
    StreamStart st channels scans_per_read callback rc =
      (Except.error (LJError.ljd LJD_STREAMING_IN_PROGRESS), st, []) := by
  simp [StreamStart, h]

/-- Witness for C7 on a streaming device with callback 7. -/
theorem streamstart_already_streaming_witness :
    StreamStart
        { streaming := true, stream_callback := some 7 }
        (some ["AIN0"]) 24 (some 9) 0 =
      (Except.error (LJError.ljd LJD_STREAMING_IN_PROGRESS),
        { streaming := true, stream_callback := some 7 }, []) :=
  streamstart_already_streaming
    { streaming := true, stream_callback := some 7 }
    (some ["AIN0"]) 24 (some 9) 0 rfl

/-- C8: a StreamStop on a device that is not streaming returns the `False`
no-op result, stops nothing at the driver and invokes no callback; the
only state change is recording `False` in the completion slot. -/
theorem streamstop_not_streaming (cbResult : PyVal)
    (st : DeviceStreamState) (h : st.streaming = false) :
    StreamStop cbResult st =
      (PyVal.bool false,
        { st with stream_completion := some (PyVal.bool false) }, []) := by
  simp [StreamStop, h]

/-- Witness for C8 on a fresh device. -/
theorem streamstop_not_streaming_witness :
    StreamStop (PyVal.int 3) {} =
      (PyVal.bool false,
        { stream_completion := some (PyVal.bool false) }, []) :=
  streamstop_not_streaming (PyVal.int 3) {} rfl

/-- C10: the public `Type` query reports `"STRING"` for every register
carrying a constants mapping and the declared tag otherwise, while the
dispatch type `_typeraw` always reports the declared tag, so the two
disagree on a constants-bearing register whose declared tag is not
`"STRING"`. -/
theorem type_query_vs_typeraw (registers : List (String × RegEntry))
    (name : String) (info : RegEntry)
    (h : dictGet name registers = some info) :
    (info.constants.isSome = true →
      Type' registers name = Except.ok "STRING") ∧
    (info.constants = none →
      Type' registers name = Except.ok info.type) ∧
    _typeraw registers name = Except.ok info.type ∧
    (info.constants.isSome = true → info.type ≠ "STRING" →
      Type' registers name ≠ _typeraw registers name) := by
  refine ⟨?_, ?_, ?_, ?_⟩
  · intro hc
    simp [Type', h, hc]
  · intro hc
    simp [Type', h, hc]
  · simp [_typeraw, h]
  · intro hc hne
    simp [Type', _typeraw, h, hc]
    exact fun hh => hne hh.symm

/-- Witness for C10 on the constants-bearing `UINT16` register. -/
theorem type_query_vs_typeraw_witness :
    (Type' (buildRegisters [enumReg]) "TEST_ENUM2" = Except.ok "STRING") ∧
    Type' (buildRegisters [enumReg]) "TEST_ENUM2" ≠
      _typeraw (buildRegisters [enumReg]) "TEST_ENUM2" := by
  have h := type_query_vs_typeraw (buildRegisters [enumReg]) "TEST_ENUM2"
    enumEntry (by decide)
  exact ⟨h.1 (by decide), h.2.2.2 (by decide) (by decide)⟩

/-- First `Open("12345")` of the lifecycle scenario. -/
def c1Open1 : Nat × RegistryState × List LifecycleEvent :=
  Open {} "12345"

/-- Second `Open("12345")`, before any Close. -/
def c1Open2 : Nat × RegistryState × List LifecycleEvent :=
  Open c1Open1.2.1 "12345"

/-- First `Close` on the shared device. -/
def c1Close1 : RegistryState × List LifecycleEvent :=
  Close c1Open2.2.1 "12345"

/-- Second `Close` on the shared device. -/
def c1Close2 : RegistryState × List LifecycleEvent :=
  Close c1Close1.1 "12345"

/-- Every driver call the scenario makes. -/
def c1Events : List LifecycleEvent :=
  c1Open1.2.2 ++ c1Open2.2.2 ++ c1Close1.2 ++ c1Close2.2

/-- Evaluation of the code on the C1 scenario: the second Open returns the
same device with a use count of 2, and the second Close removes the
ownership record — but the whole run performs ZERO driver close calls,
because the source never invokes any `ljm` close primitive (its Close path
only deletes the table entry and a local reference), whereas the claim
requires exactly one driver close after the second Close. -/
theorem open_twice_close_twice_eval :
    c1Open2.1 = c1Open1.1 ∧
    dictGet "12345" c1Open2.2.1.sn_in_use =
      some { device := c1Open1.1, use := 2 } ∧
    dictGet "12345" c1Close2.1.sn_in_use = none ∧
    (c1Events.filter isDriverClose).length = 0 := by
  decide

/-- A plain writable `FLOAT32` register. -/
def floatReg : RawReg :=
  { name := "TEST_FLOAT", address := 2000, type := "FLOAT32",
    readwrite := "RW" }

/-- Evaluation of the code on the C3 float-write input: writing the value
5 to the writable `FLOAT32` register raises `ValueError` — source line 167
applies `float()` to the register NAME (`float("TEST_FLOAT")`) and omits
the value from the two-argument driver call — so no driver write is made
and the supplied value is never coerced or transmitted, whereas the claim
requires the value to be coerced to float and written. -/
theorem float_write_drops_value_eval :
    WriteRegister (buildRegisters [floatReg]) "TEST_FLOAT" (PyVal.float 5) =
      (Except.error LJError.pyValueError, []) := by
  rfl

/-- Evaluation of the code on the C9 round trip: after
`SetConfigDialog(5)` a `GetConfigDialog()` still returns `None` — the
setter assigns the misspelled attribute `config_dialg` while the getter
reads `config_dialog` — so the slot is not a pass-through as the claim
requires. -/
theorem config_dialog_not_passthrough_eval :
    GetConfigDialog (SetConfigDialog configInit (some 5)) = none ∧
    some (5 : Int) ≠ none := by
  decide

end LabJackHandler
